import Mathlib

/-!
# FLASHDRVR: the flash programmer of sw/host/flashdrvr.cpp

The driver has two layers.  The SPI transport (getbus, sendspibyte, start,
stop, take_offline, restore_online) pokes the register R_FLASHCFG; the flash
programmer (flwait, bytecmd, readi, erase_sector, page_program, write) is
written on top of those routines.  The transport routines are embedded over a
record of the accesses to R_FLASHCFG, in which the hardware is an arbitrary
sequence of values read.  The programmer is embedded over a transport given
as a record of operations on a hardware state.  A simulated flash device
gives one concrete transport, on which the programmer can be run: there a
sector erase sets every byte of the sector to 0xFF and a page program replaces
each byte by old & data.  A scripted link, which answers with arbitrary bytes,
gives another.  On both, take_offline is the routine of the source run on the
register, and it returns on no hardware: its pulse loop tests `k` and steps
`i`.  So no call of write gets past its first statement.  What follows that
statement (the sector loop, write_disable, restore_online) is embedded as
`write_rest` and examined as code in its own right, entered with the bus
offline.

Conventions.
* C `unsigned` values are naturals, reduced modulo 2^32 where the source does
  arithmetic on them.
* A `char` is the natural 0..255 with the same bit pattern; every comparison
  the source makes on chars is a comparison of bit patterns.
* `assert` is live: a failed assertion ends the call (`Res.assertFail`).
* A loop that polls the device takes fuel and yields `Res.hang` when the fuel
  runs out.
* `printf` guarded by `m_debug` is left out; the other messages are recorded.
* Memory the source reads before writing it is a parameter: `junk s i` is
  byte `i` of the fresh `new char[SECTORSZB]` of the pass for sector `s`,
  `ulen p` is what the variable `len` declared in the body of the page loop
  holds, before its initialiser has run, in the pass that starts at `p`.
* `data i` is the char at `data + i`, also beyond the `len` bytes of a request.
-/

namespace FLASHDRVR

/-! ## Machine arithmetic -/

/-- Value of an `unsigned` expression: reduction modulo 2^32. -/
def u32 (n : Nat) : Nat := n % 4294967296

/-- Sum of two `unsigned` values. -/
def uadd (a b : Nat) : Nat := u32 (a + b)

/-- Difference of two `unsigned` values, wrapping below zero. -/
def usub (a b : Nat) : Nat := u32 (a + (4294967296 - u32 b))

/-! ## Constants the source takes from headers that are not part of the tree -/

/-- Geometry, register bit and command opcodes used by flashdrvr.cpp.  They are
declared in flashdrvr.h and regdefs.h (the `CFG_` defines in flashdrvr.cpp are
empty), so they are parameters of the embedding. -/
structure Config where
  SECTORSZB : Nat
  PGLENB : Nat
  NPAGES : Nat
  SZPAGEW : Nat
  CFG_USERGRANT : Nat
  CMD_READSTATUS : Nat
  CMD_WRITEENABLE : Nat
  CMD_WRITEDISABLE : Nat
  CMD_ERASESECTOR : Nat
  CMD_READARRAY : Nat
  CMD_PAGEPROGRAM : Nat

/-- Modelled from the spec: the macro PAGEOF (flashdrvr.h) is the page
alignment helper; both ends of a range "map to the same page index" when their
PAGEOF agree.  It is the start address of the page holding `a`. -/
def PAGEOF (c : Config) (a : Nat) : Nat := a - a % c.PGLENB

/-- Modelled from the spec: the macro SECTOROF (flashdrvr.h) is the sector
alignment helper: the start address of the sector holding `a`. -/
def SECTOROF (c : Config) (a : Nat) : Nat := a - a % c.SECTORSZB

/-- Geometry and opcodes of a common 25-series part: 256-byte pages (64
words), 4 kB sectors of 16 pages. -/
def typical : Config :=
  { SECTORSZB := 4096, PGLENB := 256, NPAGES := 16, SZPAGEW := 64,
    CFG_USERGRANT := 4096,
    CMD_READSTATUS := 5, CMD_WRITEENABLE := 6, CMD_WRITEDISABLE := 4,
    CMD_ERASESECTOR := 32, CMD_READARRAY := 3, CMD_PAGEPROGRAM := 2 }

/-! ## The transport below the programmer -/

/-- The routines the programmer calls on the link: `m_fpga->readio(R_FLASHCFG)`,
the bus burst read `m_fpga->readi`, and the transport routines of
flashdrvr.cpp.  take_offline takes fuel for its loops and yields none when it
does not return; the other routines are taken to return (the poll of getbus
inside sendspibyte ends). -/
structure Transport (σ : Type) where
  readcfg : σ → Nat × σ
  busreadi : Nat → Nat → σ → σ
  take_offline : Nat → σ → Option σ
  restore_online : σ → σ
  start : σ → σ
  stop : σ → σ
  sendspibyte : Nat → σ → Nat × σ

/-- Messages the driver prints unconditionally. -/
inductive Msg where
  | verifyFails (k : Nat) (a : Nat)
  | erasingSector (s : Nat)
  | sectorEraseFailed
  | writePageFailed
  | sectorDone (s : Nat)
  deriving DecidableEq, Repr

/-- Driver state: the hardware behind the transport, the variable `sector`
that page_program names in its read-back without declaring it (no routine of
flashdrvr.cpp assigns it), and the messages printed so far. -/
structure Drv (σ : Type) where
  hw : σ
  sector : Nat
  out : List Msg

/-- Outcome of a call: it returns, an assertion fails, or it never returns. -/
inductive Res (σ α : Type) where
  | ret : α → σ → Res σ α
  | assertFail : σ → Res σ α
  | hang : Res σ α

namespace Drv

variable {σ : Type}

def readcfg (T : Transport σ) : Drv σ → Nat × Drv σ
  | ⟨hw, sector, out⟩ =>
    match T.readcfg hw with
    | (r, h) => (r, ⟨h, sector, out⟩)

def busreadi (T : Transport σ) (base n : Nat) : Drv σ → Drv σ
  | ⟨hw, sector, out⟩ => ⟨T.busreadi base n hw, sector, out⟩

def take_offline (T : Transport σ) (fuel : Nat) : Drv σ → Option (Drv σ)
  | ⟨hw, sector, out⟩ => (T.take_offline fuel hw).map (fun h => ⟨h, sector, out⟩)

def restore_online (T : Transport σ) : Drv σ → Drv σ
  | ⟨hw, sector, out⟩ => ⟨T.restore_online hw, sector, out⟩

def start (T : Transport σ) : Drv σ → Drv σ
  | ⟨hw, sector, out⟩ => ⟨T.start hw, sector, out⟩

def stop (T : Transport σ) : Drv σ → Drv σ
  | ⟨hw, sector, out⟩ => ⟨T.stop hw, sector, out⟩

def sendspibyte (T : Transport σ) (d : Nat) : Drv σ → Nat × Drv σ
  | ⟨hw, sector, out⟩ =>
    match T.sendspibyte d hw with
    | (r, h) => (r, ⟨h, sector, out⟩)

def print (m : Msg) : Drv σ → Drv σ
  | ⟨hw, sector, out⟩ => ⟨hw, sector, out ++ [m]⟩

end Drv

/-! ## The programmer -/

section Programmer

variable {σ : Type} (T : Transport σ) (c : Config)

/-- The polling loop of flwait: `do s = sendspibyte(CMD_READSTATUS); while (s & 0x01)`. -/
def flwait_poll : Nat → Drv σ → Res (Drv σ) Unit
  | 0, _ => Res.hang
  | fuel + 1, st =>
    let r := Drv.sendspibyte T c.CMD_READSTATUS st
    if r.1 &&& 1 ≠ 0 then flwait_poll fuel r.2 else Res.ret () r.2

/-- FLASHDRVR::flwait. -/
def flwait (fuel : Nat) (st : Drv σ) : Res (Drv σ) Unit :=
  let r := Drv.readcfg T st
  if r.1 &&& c.CFG_USERGRANT ≠ 0 then Res.assertFail r.2
  else
    let st1 := Drv.start T r.2
    let st2 := (Drv.sendspibyte T c.CMD_READSTATUS st1).2
    match flwait_poll T c fuel st2 with
    | Res.ret _ st3 => Res.ret () (Drv.stop T st3)
    | Res.assertFail s => Res.assertFail s
    | Res.hang => Res.hang

/-- FLASHDRVR::bytecmd. -/
def bytecmd (cmd : Nat) (st : Drv σ) : Drv σ :=
  Drv.stop T (Drv.sendspibyte T (cmd % 256) (Drv.start T st)).2

/-- FLASHDRVR::write_enable. -/
def write_enable (st : Drv σ) : Drv σ := bytecmd T c.CMD_WRITEENABLE st

/-- FLASHDRVR::write_disable. -/
def write_disable (st : Drv σ) : Drv σ := bytecmd T c.CMD_WRITEDISABLE st

/-- The word loop of readi: four byte shifts per word, first byte on top. -/
def readi_words : Nat → Drv σ → List Nat × Drv σ
  | 0, st => ([], st)
  | n + 1, st =>
    match Drv.sendspibyte T 0 st with
    | (b0, st0) =>
      match Drv.sendspibyte T 0 st0 with
      | (b1, st1) =>
        match Drv.sendspibyte T 0 st1 with
        | (b2, st2) =>
          match Drv.sendspibyte T 0 st2 with
          | (b3, st3) =>
            let r0 := b0 &&& 255
            let r1 := u32 (r0 <<< 8) ||| (b1 &&& 255)
            let r2 := u32 (r1 <<< 8) ||| (b2 &&& 255)
            let r3 := u32 (r2 <<< 8) ||| (b3 &&& 255)
            match readi_words n st3 with
            | (rest, st4) => (r3 :: rest, st4)

/-- FLASHDRVR::readi: the words stored to `buf[0..ln)`. -/
def readi (base ln : Nat) (st : Drv σ) : List Nat × Drv σ :=
  let st0 := Drv.busreadi T base (ln >>> 2) st
  let st1 := Drv.start T st0
  let st2 := (Drv.sendspibyte T c.CMD_READARRAY st1).2
  let st3 := (Drv.sendspibyte T ((base >>> 16) &&& 255) st2).2
  let st4 := (Drv.sendspibyte T ((base >>> 8) &&& 255) st3).2
  let st5 := (Drv.sendspibyte T (base &&& 255) st4).2
  readi_words T ln st5

/-- The verification loop of erase_sector.  `i` counts the pages done; the
address `sector + i*SZPAGEW` the source computes is not used by it, each pass
reads `readi(sector, SZPAGEW, page)`. -/
def erase_verify (sector : Nat) : Nat → Nat → Drv σ → Bool × Drv σ
  | 0, _, st => (true, st)
  | n + 1, i, st =>
    let _addr := uadd sector (u32 (i * c.SZPAGEW))
    match readi T c sector c.SZPAGEW st with
    | (page, st1) =>
      if page.all (fun w => w == 4294967295) then erase_verify sector n (i + 1) st1
      else (false, st1)

/-- FLASHDRVR::erase_sector. -/
def erase_sector (fuel : Nat) (sector : Nat) (verify_erase : Bool) (st : Drv σ) :
    Res (Drv σ) Bool :=
  let st0 := write_enable T c st
  let st1 := Drv.start T st0
  let st2 := (Drv.sendspibyte T c.CMD_ERASESECTOR st1).2
  let st3 := (Drv.sendspibyte T ((sector >>> 16) &&& 255) st2).2
  let st4 := (Drv.sendspibyte T ((sector >>> 8) &&& 255) st3).2
  let st5 := (Drv.sendspibyte T (sector &&& 255) st4).2
  let st6 := Drv.stop T st5
  match flwait T c fuel st6 with
  | Res.ret _ st7 =>
    if verify_erase then
      let r := erase_verify T c sector c.NPAGES 0 st7
      Res.ret r.1 r.2
    else Res.ret true st7
  | Res.assertFail s => Res.assertFail s
  | Res.hang => Res.hang

/-- The scan that decides `empty_page` in page_program:
`for(i=0; i<len; i+=4) if ((data[i]&0x0ff) != 0x0ff) not empty`. -/
def empty_page_scan (data : Nat → Nat) (len : Nat) : Nat → Nat → Bool
  | 0, _ => true
  | n + 1, i =>
    if i < len then
      if data i &&& 255 ≠ 255 then false else empty_page_scan data len n (i + 4)
    else true

/-- The data loop of the program phase: `for(i=0; i<len; i++) sendspibyte(data[i])`. -/
def send_data (data : Nat → Nat) : Nat → Nat → Drv σ → Drv σ
  | 0, _, st => st
  | n + 1, i, st => send_data data n (i + 1) (Drv.sendspibyte T (data i) st).2

/-- The read-back loop of page_program: the first byte that differs from
`data[k]` ends it with the message VERIFY FAILS[k]. -/
def verify_scan (addr : Nat) (data : Nat → Nat) : Nat → Nat → Drv σ → Bool × Drv σ
  | 0, _, st => (true, st)
  | n + 1, k, st =>
    let b := Drv.sendspibyte T 0 st
    let r := b.1 &&& 255
    if ((r ^^^ data k) &&& 255) ≠ 0 then
      (false, Drv.print (Msg.verifyFails k (uadd k addr)) b.2)
    else verify_scan addr data n (k + 1) b.2

/-- The program phase of page_program (the body of `if (!empty_page)`). -/
def program_phase (fuel addr len : Nat) (data : Nat → Nat) (st : Drv σ) :
    Res (Drv σ) Unit :=
  let st0 := write_enable T c st
  let st1 := Drv.start T st0
  let st2 := (Drv.sendspibyte T c.CMD_PAGEPROGRAM st1).2
  let st3 := (Drv.sendspibyte T ((addr >>> 16) &&& 255) st2).2
  let st4 := (Drv.sendspibyte T ((addr >>> 8) &&& 255) st3).2
  let st5 := (Drv.sendspibyte T (addr &&& 255) st4).2
  let st6 := send_data T data len 0 st5
  flwait T c fuel st6

/-- The verify phase of page_program (the body of `if (verify_write)`): the
READ-ARRAY command carries the three address bytes of `sector`. -/
def verify_phase (addr len : Nat) (data : Nat → Nat) (st : Drv σ) : Bool × Drv σ :=
  let st1 := Drv.start T st
  let st2 := (Drv.sendspibyte T c.CMD_READARRAY st1).2
  let st3 := (Drv.sendspibyte T ((st.sector >>> 16) &&& 255) st2).2
  let st4 := (Drv.sendspibyte T ((st.sector >>> 8) &&& 255) st3).2
  let st5 := (Drv.sendspibyte T (st.sector &&& 255) st4).2
  verify_scan T addr data len 0 st5

/-- FLASHDRVR::page_program. -/
def page_program (fuel addr len : Nat) (data : Nat → Nat) (verify_write : Bool)
    (st : Drv σ) : Res (Drv σ) Bool :=
  if ¬ (len > 0) then Res.assertFail st
  else if ¬ (len ≤ c.PGLENB) then Res.assertFail st
  else if ¬ (PAGEOF c addr = PAGEOF c (usub (uadd addr len) 1)) then Res.assertFail st
  else if len ≤ 0 then Res.ret true st
  else
    let empty_page := empty_page_scan data len len 0
    match (if !empty_page then program_phase T c fuel addr len data st
           else Res.ret () st) with
    | Res.ret _ st1 =>
      if verify_write then
        let r := verify_phase T c addr len data st1
        Res.ret r.1 r.2
      else Res.ret true st1
    | Res.assertFail s => Res.assertFail s
    | Res.hang => Res.hang

/-- The helper byteswapbuf (byteswap.h) reverses the four bytes of each word
of a buffer; this is its action on one word. -/
def byteswap (w : Nat) : Nat :=
  ((w &&& 255) <<< 24) ||| (((w >>> 8) &&& 255) <<< 16) |||
    (((w >>> 16) &&& 255) <<< 8) ||| ((w >>> 24) &&& 255)

/-- Byte `i` of the buffer `sbuf` of write, seen as chars on the little-endian
host: the words stored there, then whatever `new char[SECTORSZB]` held. -/
def sbuf_byte (words : List Nat) (junk : Nat → Nat) (i : Nat) : Nat :=
  if i < 4 * words.length then (words.getD (i / 4) 0 >>> (8 * (i % 4))) &&& 255
  else junk i

/-- The comparison loop of write over the overlap: the result is
(need_erase, newv).  `i & -4` clears the two low bits of `i`. -/
def diff_scan (sbuf dp : Nat → Nat) (base ln : Nat) : Nat → Nat → Nat → Bool × Nat
  | 0, _, newv => (false, newv)
  | n + 1, i, newv =>
    if i < ln then
      if (sbuf i &&& dp i) ≠ dp i then (true, uadd (i &&& 4294967292) base)
      else if sbuf i ≠ dp i ∧ newv = 0 then
        diff_scan sbuf dp base ln n (i + 1) (uadd (i &&& 4294967292) base)
      else diff_scan sbuf dp base ln n (i + 1) newv
    else (false, newv)

/-- The chunk `(start, len)` the body of the page loop computes in the pass at
`p`.  The line `unsigned start = p, len = addr+len-start;` declares a new
`len`, and the `len` on its right-hand side is already that new variable: it
holds `g`, whatever was in its place.  The clipping to the page follows. -/
def page_chunk (addr g p : Nat) : Nat × Nat :=
  let start := p
  let len1 := usub (uadd addr g) start
  (start,
    if PAGEOF c (usub (uadd start len1) 1) ≠ PAGEOF c start then
      usub (PAGEOF c (uadd start c.PGLENB)) start
    else len1)

/-- The page loop of write:
`for(p=newv; (p<s+SECTORSZB)&&(p<addr+len); p=PAGEOF(p+PGLENB))`.
The `len` of the header is the one of the request; the body passes
`page_chunk` to page_program, with `&data[p-addr]`. -/
def program_pages (ulen : Nat → Nat) (fuel addr len : Nat) (data : Nat → Nat) (verify : Bool)
    (s : Nat) : Nat → Nat → Drv σ → Res (Drv σ) Bool
  | 0, _, _ => Res.hang
  | n + 1, p, st =>
    if p < uadd s c.SECTORSZB ∧ p < uadd addr len then
      match page_program T c fuel (page_chunk c addr (ulen p) p).1 (page_chunk c addr (ulen p) p).2
          (fun i => data (usub p addr + i)) verify st with
      | Res.ret true st1 => program_pages ulen fuel addr len data verify s n
          (PAGEOF c (uadd p c.PGLENB)) st1
      | Res.ret false st1 => Res.ret false (Drv.print Msg.writePageFailed st1)
      | Res.assertFail x => Res.assertFail x
      | Res.hang => Res.hang
    else Res.ret true st

/-- The body of the sector loop of write, for the sector at `s`.  The result
`true` goes on to the next sector (also through `continue`), `false` is the
`return false` of write.  `junk s` is what the fresh `sbuf` holds. -/
def write_sector (junk : Nat → Nat → Nat) (ulen : Nat → Nat) (fuel addr len : Nat)
    (data : Nat → Nat) (verify : Bool) (s : Nat) (st : Drv σ) : Res (Drv σ) Bool :=
  let base := if addr > s then addr else s
  let ln := usub (if uadd addr len > uadd s c.SECTORSZB then uadd s c.SECTORSZB
                  else uadd addr len) base
  let r := readi T c base (ln >>> 2) st
  let words := r.1.map byteswap
  let sbuf := sbuf_byte words (junk s)
  let dp := fun i => data (usub base addr + i)
  let d := diff_scan sbuf dp base ln ln 0 0
  let need_erase := d.1
  if d.2 = 0 then Res.ret true r.2
  else
    let erased : Res (Drv σ) (Option Nat) :=
      if !need_erase then Res.ret (some d.2) r.2
      else
        match erase_sector T c fuel s verify (Drv.print (Msg.erasingSector s) r.2) with
        | Res.ret true st1 => Res.ret (some (if s < addr then addr else s)) st1
        | Res.ret false st1 => Res.ret none (Drv.print Msg.sectorEraseFailed st1)
        | Res.assertFail x => Res.assertFail x
        | Res.hang => Res.hang
    match erased with
    | Res.ret none st1 => Res.ret false st1
    | Res.ret (some newv) st1 =>
      match program_pages T c ulen fuel addr len data verify s fuel newv st1 with
      | Res.ret true st2 =>
        Res.ret true (if need_erase then Drv.print (Msg.sectorDone s) st2 else st2)
      | Res.ret false st2 => Res.ret false st2
      | Res.assertFail x => Res.assertFail x
      | Res.hang => Res.hang
    | Res.assertFail x => Res.assertFail x
    | Res.hang => Res.hang

/-- The sector loop of write:
`for(s=SECTOROF(addr); s<SECTOROF(addr+len+SECTORSZB-1); s+=SECTORSZB)`. -/
def write_sectors (junk : Nat → Nat → Nat) (ulen : Nat → Nat) (fuel addr len : Nat)
    (data : Nat → Nat) (verify : Bool) : Nat → Nat → Drv σ → Res (Drv σ) Bool
  | 0, _, _ => Res.hang
  | n + 1, s, st =>
    if s < SECTOROF c (usub (uadd (uadd addr len) c.SECTORSZB) 1) then
      match write_sector T c junk ulen fuel addr len data verify s st with
      | Res.ret true st1 =>
        write_sectors junk ulen fuel addr len data verify n (uadd s c.SECTORSZB) st1
      | Res.ret false st1 => Res.ret false st1
      | Res.assertFail x => Res.assertFail x
      | Res.hang => Res.hang
    else Res.ret true st

/-- What write does after its first statement `take_offline();`: the sector
loop, then `write_disable(); restore_online(); return true;`. -/
def write_rest (junk : Nat → Nat → Nat) (ulen : Nat → Nat) (fuel addr len : Nat)
    (data : Nat → Nat) (verify : Bool) (st : Drv σ) : Res (Drv σ) Bool :=
  match write_sectors T c junk ulen fuel addr len data verify fuel (SECTOROF c addr) st with
  | Res.ret true st1 => Res.ret true (Drv.restore_online T (write_disable T c st1))
  | Res.ret false st1 => Res.ret false st1
  | Res.assertFail x => Res.assertFail x
  | Res.hang => Res.hang

/-- FLASHDRVR::write: take_offline, then the rest. -/
def write (junk : Nat → Nat → Nat) (ulen : Nat → Nat) (fuel addr len : Nat) (data : Nat → Nat)
    (verify : Bool) (st : Drv σ) : Res (Drv σ) Bool :=
  match Drv.take_offline T fuel st with
  | none => Res.hang
  | some st0 => write_rest T c junk ulen fuel addr len data verify st0

end Programmer

/-! ## A simulated flash device behind the transport -/

/-- What the link carries. -/
inductive Ev where
  | offline
  | online
  | select
  | deselect
  | byte (d : Nat)
  | busread (base n : Nat)
  deriving DecidableEq, Repr

/-- Where the device is in the command it is receiving. -/
inductive Phase where
  | idle
  | opcode
  | addr (op n a : Nat)
  | reading (a : Nat)
  | programming (a : Nat)
  | status
  | other
  deriving DecidableEq, Repr

/-- The simulated device and link.  `mem` is the array; `keep a` masks what
cell `a` can hold (255 on a sound cell, a cleared bit is stuck at 0);
`latency` is the number of status polls an erase or program stays busy;
`wel` is the write-enable latch; `flashcfg` is what R_FLASHCFG reads as; `log`
records the link, newest event first. -/
structure Sim where
  mem : Nat → Nat
  keep : Nat → Nat
  latency : Nat
  busy : Nat
  wel : Bool
  phase : Phase
  flashcfg : Nat
  isOnline : Bool
  log : List Ev

namespace Sim

/-- The latch after the end of a command: a program in progress finishes and
drops it. -/
def latchAfter (wel : Bool) : Phase → Bool
  | Phase.programming _ => false
  | _ => wel

/-- The array after a sector erase at `a`: every byte of the sector holding
`a` becomes 0xFF (as far as the cell can hold it). -/
def erased (c : Config) (a : Nat) (mem keep : Nat → Nat) : Nat → Nat :=
  fun x => if SECTOROF c x = SECTOROF c a then 255 &&& keep x else mem x

/-- The array after one byte of a page program at `a`: the cell becomes
old & data. -/
def programmed (a d : Nat) (mem keep : Nat → Nat) : Nat → Nat :=
  fun x => if x = a then mem a &&& d &&& keep a else mem x

/-- The device takes the byte `d` and answers with a byte. -/
def exchange (c : Config) (d : Nat) : Sim → Nat × Sim
  | ⟨mem, keep, latency, busy, wel, phase, flashcfg, isOnline, log⟩ =>
    match phase with
    | Phase.idle => (0, ⟨mem, keep, latency, busy, wel, Phase.idle, flashcfg, isOnline, log⟩)
    | Phase.opcode =>
      if d = c.CMD_READSTATUS then
        (0, ⟨mem, keep, latency, busy, wel, Phase.status, flashcfg, isOnline, log⟩)
      else if d = c.CMD_WRITEENABLE then
        (0, ⟨mem, keep, latency, busy, true, Phase.other, flashcfg, isOnline, log⟩)
      else if d = c.CMD_WRITEDISABLE then
        (0, ⟨mem, keep, latency, busy, false, Phase.other, flashcfg, isOnline, log⟩)
      else if d = c.CMD_READARRAY ∨ d = c.CMD_PAGEPROGRAM ∨ d = c.CMD_ERASESECTOR then
        (0, ⟨mem, keep, latency, busy, wel, Phase.addr d 0 0, flashcfg, isOnline, log⟩)
      else (0, ⟨mem, keep, latency, busy, wel, Phase.other, flashcfg, isOnline, log⟩)
    | Phase.addr op n a =>
      if n + 1 < 3 then
        (0, ⟨mem, keep, latency, busy, wel, Phase.addr op (n + 1) (a * 256 + d % 256),
             flashcfg, isOnline, log⟩)
      else if op = c.CMD_READARRAY then
        (0, ⟨mem, keep, latency, busy, wel, Phase.reading (a * 256 + d % 256),
             flashcfg, isOnline, log⟩)
      else if op = c.CMD_PAGEPROGRAM then
        (0, ⟨mem, keep, latency, busy, wel,
             if wel then Phase.programming (a * 256 + d % 256) else Phase.other,
             flashcfg, isOnline, log⟩)
      else if wel then
        (0, ⟨erased c (a * 256 + d % 256) mem keep, keep, latency, latency, false, Phase.other,
             flashcfg, isOnline, log⟩)
      else (0, ⟨mem, keep, latency, busy, wel, Phase.other, flashcfg, isOnline, log⟩)
    | Phase.reading a =>
      (mem a, ⟨mem, keep, latency, busy, wel, Phase.reading ((a + 1) % 16777216),
               flashcfg, isOnline, log⟩)
    | Phase.programming a =>
      (0, ⟨programmed a d mem keep, keep, latency, latency, wel,
           Phase.programming ((a + 1) % 16777216), flashcfg, isOnline, log⟩)
    | Phase.status =>
      ((if busy > 0 then 1 else 0) + (if wel then 2 else 0),
        ⟨mem, keep, latency, busy - 1, wel, Phase.status, flashcfg, isOnline, log⟩)
    | Phase.other => (0, ⟨mem, keep, latency, busy, wel, Phase.other, flashcfg, isOnline, log⟩)

/-- The link logs the event `e`. -/
def logged (e : Ev) : Sim → Sim
  | ⟨mem, keep, latency, busy, wel, phase, flashcfg, isOnline, log⟩ =>
    ⟨mem, keep, latency, busy, wel, phase, flashcfg, isOnline, e :: log⟩

/-- Chip select moves: the command in progress ends and the device goes to
`next`. -/
def selectTo (next : Phase) (e : Ev) : Sim → Sim
  | ⟨mem, keep, latency, busy, wel, phase, flashcfg, isOnline, log⟩ =>
    ⟨mem, keep, latency, busy, latchAfter wel phase, next, flashcfg, isOnline, e :: log⟩

/-- The bus mode becomes `b` (true: online). -/
def setOnline (b : Bool) : Sim → Sim
  | ⟨mem, keep, latency, busy, wel, phase, flashcfg, _, log⟩ =>
    ⟨mem, keep, latency, busy, wel, phase, flashcfg, b, log⟩

/-- A sound device holding `mem`, idle and online.  R_FLASHCFG reads 0 on it,
so the assertion of flwait holds. -/
def init (mem : Nat → Nat) : Sim :=
  { mem := mem, keep := fun _ => 255, latency := 1, busy := 0, wel := false,
    phase := Phase.idle, flashcfg := 0, isOnline := true, log := [] }

end Sim

/-- A driver on the simulated device holding `mem`, with `sector` as given. -/
def Drv.onSim (mem : Nat → Nat) (sector : Nat) : Drv Sim :=
  { hw := Sim.init mem, sector := sector, out := [] }

/-- The same on a device whose cell `a` holds only the bits of `mask`. -/
def Drv.onFaulty (mem : Nat → Nat) (sector a mask : Nat) : Drv Sim :=
  { hw := { Sim.init mem with keep := fun x => if x = a then mask else 255 },
    sector := sector, out := [] }

/-! ## Observations of an outcome -/

/-- The state left, if the call returns or aborts. -/
def Res.state? {σ α : Type} : Res σ α → Option σ
  | Res.ret _ s => some s
  | Res.assertFail s => some s
  | Res.hang => none

/-- The command bytes in a record of the link (oldest event first): the first
byte after each chip select. -/
def opcodes : List Ev → List Nat
  | Ev.select :: Ev.byte d :: rest => d :: opcodes rest
  | _ :: rest => opcodes rest
  | [] => []

/-- What a run on the simulated device shows: the value returned (none when an
assertion ended the call), the flash bytes at the addresses asked for, whether
the bus is online, the messages printed and the commands sent. -/
structure Seen where
  val : Option Bool
  flash : List Nat
  isOnline : Bool
  printed : List Msg
  commands : List Nat
  deriving DecidableEq, Repr

/-- Observation of an outcome on the simulated device; none when the call does
not return. -/
def see (addrs : List Nat) : Res (Drv Sim) Bool → Option Seen
  | Res.ret b st =>
    some ⟨some b, addrs.map st.hw.mem, st.hw.isOnline, st.out, opcodes st.hw.log.reverse⟩
  | Res.assertFail st =>
    some ⟨none, addrs.map st.hw.mem, st.hw.isOnline, st.out, opcodes st.hw.log.reverse⟩
  | Res.hang => none

/-- Everything the link carried up to the end of the call, oldest first. -/
def trafficAfter {α : Type} (r : Res (Drv Sim) α) : Option (List Ev) :=
  r.state?.map (fun st => st.hw.log.reverse)

/-- A buffer given by its first bytes; 0xFF beyond them. -/
def bytes (l : List Nat) : Nat → Nat := fun i => l.getD i 255

/-- Contents that are 0xFF everywhere but at the listed places. -/
def ffExcept (cells : List (Nat × Nat)) : Nat → Nat :=
  fun a => ((cells.find? (fun p => p.1 == a)).map (fun p => p.2)).getD 255

/-- Fresh buffers that hold the byte `b` everywhere. -/
def junkAll (b : Nat) : Nat → Nat → Nat := fun _ _ => b

/-! ## The SPI transport at the register R_FLASHCFG -/

/-- The bits of R_FLASHCFG.  The `CFG_` names are defined empty in
flashdrvr.cpp and `CMD_CS_N`, `CMD_SCK`, which take_offline uses, are defined
nowhere in the tree, so the values are parameters. -/
structure Pins where
  CFG_USERGRANT : Nat
  CFG_USERREQUEST : Nat
  CFG_CS_N : Nat
  CFG_MISO : Nat
  CFG_MOSI : Nat
  CFG_SCK : Nat
  CMD_CS_N : Nat
  CMD_SCK : Nat

/-- One access to R_FLASHCFG: a read that returned `v`, or a write of `v`. -/
inductive Op where
  | rd (v : Nat)
  | wr (v : Nat)
  deriving DecidableEq, Repr

/-- The register seen from the host: `input n` is what the read number `n`
returns (any hardware is some such sequence), `nreads` counts the reads done,
`ops` records every access, oldest first. -/
structure Regs where
  input : Nat → Nat
  nreads : Nat
  ops : List Op

/-- The call `m_fpga->readio(R_FLASHCFG)`. -/
def readio (st : Regs) : Nat × Regs :=
  (st.input st.nreads,
    { input := st.input, nreads := st.nreads + 1, ops := st.ops ++ [Op.rd (st.input st.nreads)] })

/-- The call `m_fpga->writeio(R_FLASHCFG, v)`. -/
def writeio (v : Nat) (st : Regs) : Regs :=
  { input := st.input, nreads := st.nreads, ops := st.ops ++ [Op.wr v] }

/-- The values written, in order. -/
def written : List Op → List Nat
  | [] => []
  | Op.wr v :: rest => v :: written rest
  | Op.rd _ :: rest => written rest

/-- The polling loop of getbus: `do s = readio(R_FLASHCFG); while((s&CFG_USERGRANT)==0)`. -/
def getbus_poll (P : Pins) : Nat → Regs → Option (Nat × Regs)
  | 0, _ => none
  | fuel + 1, st =>
    if (readio st).1 &&& P.CFG_USERGRANT = 0 then getbus_poll P fuel (readio st).2
    else some (readio st)

/-- FLASHDRVR::getbus. -/
def getbus (P : Pins) (fuel : Nat) (st : Regs) : Option (Nat × Regs) :=
  let r := readio st
  let st1 :=
    if r.1 &&& P.CFG_USERREQUEST = 0 then
      (readio (writeio (r.1 ||| P.CFG_CS_N ||| P.CFG_SCK) r.2)).2
    else r.2
  getbus_poll P fuel st1

/-- The data-in bit of a status word: `(s&CFG_MISO)?1:0`. -/
def misoBit (P : Pins) (s : Nat) : Nat := if s &&& P.CFG_MISO ≠ 0 then 1 else 0

/-- The bit loop of sendspibyte, `n` passes to go, with the current `d` and
`r` (both chars).  `mosi` is computed and used by no write. -/
def sendspibyte_bits (P : Pins) : Nat → Nat → Nat → Regs → Nat × Regs
  | 0, _, r, st => (r, st)
  | n + 1, d, r, st =>
    let _mosi := (d >>> 7) &&& 1
    let d1 := (d <<< 1) % 256
    let st1 := writeio P.CFG_MOSI st
    let st2 := writeio (P.CFG_MOSI ||| P.CFG_SCK) st1
    let s := readio st2
    let r1 := ((r <<< 1) ||| misoBit P s.1) % 256
    sendspibyte_bits P n d1 r1 s.2

/-- FLASHDRVR::sendspibyte; none when getbus does not return. -/
def sendspibyte (P : Pins) (fuel : Nat) (d : Nat) (st : Regs) : Option (Nat × Regs) :=
  match getbus P fuel st with
  | none => none
  | some (_, st1) => some (sendspibyte_bits P 8 d 0 (writeio 0 st1))

/-- The bit loop of sendspi32: `d` is a 32-bit word, `r` is declared `char`. -/
def sendspi32_bits (P : Pins) : Nat → Nat → Nat → Regs → Nat × Regs
  | 0, _, r, st => (r, st)
  | n + 1, d, r, st =>
    let _mosi := (d >>> 31) &&& 1
    let d1 := u32 (d <<< 1)
    let st1 := writeio P.CFG_MOSI st
    let st2 := writeio (P.CFG_MOSI ||| P.CFG_SCK) st1
    let s := readio st2
    let r1 := ((r <<< 1) ||| misoBit P s.1) % 256
    sendspi32_bits P n d1 r1 s.2

/-- Conversion of a `char` to `uint32_t` where plain char is signed (as on the
x86 hosts the tool runs on): the value is sign-extended. -/
def char_to_u32 (r : Nat) : Nat := if r < 128 then r else r + 4294967040

/-- FLASHDRVR::sendspi32; none when getbus does not return. -/
def sendspi32 (P : Pins) (fuel : Nat) (d : Nat) (st : Regs) : Option (Nat × Regs) :=
  match getbus P fuel st with
  | none => none
  | some (_, st1) =>
    let r := sendspi32_bits P 32 d 0 (writeio 0 st1)
    some (char_to_u32 r.1, r.2)

/-- FLASHDRVR::start. -/
def start (P : Pins) (st : Regs) : Regs := writeio 0 (writeio P.CFG_SCK st)

/-- FLASHDRVR::stop. -/
def stop (P : Pins) (st : Regs) : Regs :=
  writeio (P.CFG_SCK ||| P.CFG_CS_N) (writeio P.CFG_SCK st)

/-- FLASHDRVR::restore_online. -/
def restore_online (P : Pins) (st : Regs) : Regs := writeio P.CFG_USERREQUEST st

/-- FLASHDRVR::release. -/
def release (P : Pins) (st : Regs) : Regs :=
  writeio (P.CFG_USERREQUEST ||| P.CFG_SCK ||| P.CFG_CS_N) st

/-- The clock-pulse loop of take_offline: `for(int k=0; k<32; i++)`.  The
test is on `k`, the step increments `i` (a name take_offline does not
declare); the result is the final `i` and the register. -/
def take_offline_pulses (P : Pins) : Nat → Nat → Nat → Regs → Option (Nat × Regs)
  | 0, _, _, _ => none
  | fuel + 1, k, i, st =>
    if k < 32 then take_offline_pulses P fuel k (i + 1) (writeio P.CMD_SCK (writeio 0 st))
    else some (i, st)

/-- FLASHDRVR::take_offline, entered with `i` holding `i0`; none when it does
not return. -/
def take_offline (P : Pins) (fuel : Nat) (i0 : Nat) (st : Regs) : Option Regs :=
  match getbus P fuel st with
  | none => none
  | some (_, st1) =>
    let st2 := writeio (P.CMD_CS_N ||| P.CMD_SCK) st1
    let st3 := writeio P.CMD_SCK st2
    match take_offline_pulses P fuel 0 i0 st3 with
    | none => none
    | some (_, st4) =>
      let st5 := writeio (P.CMD_CS_N ||| P.CMD_SCK) st4
      match sendspibyte P fuel 171 (start P st5) with
      | none => none
      | some (_, st6) => some (stop P st6)

/-- One assignment of the register bits: clock, data out, data in, chip
select, then the request and grant bits. -/
def pins : Pins :=
  { CFG_SCK := 1, CFG_MOSI := 2, CFG_MISO := 4, CFG_CS_N := 8,
    CFG_USERREQUEST := 256, CFG_USERGRANT := 4096, CMD_CS_N := 8, CMD_SCK := 1 }

/-- The register before any access, with reads given by `input`. -/
def Regs.fresh (input : Nat → Nat) : Regs := { input := input, nreads := 0, ops := [] }

/-- Reads given by a list; the last value repeats (0 for the empty list). -/
def readsFrom (l : List Nat) : Nat → Nat := fun n => l.getD n (l.getLastD 0)

/-! ## The two links -/

/-- The bits of R_FLASHCFG on the simulated and the scripted link: the grant
bit of the configuration, the others as in `pins`. -/
def pinsOf (c : Config) : Pins :=
  { CFG_SCK := pins.CFG_SCK, CFG_MOSI := pins.CFG_MOSI, CFG_MISO := pins.CFG_MISO,
    CFG_CS_N := pins.CFG_CS_N, CFG_USERREQUEST := pins.CFG_USERREQUEST,
    CFG_USERGRANT := c.CFG_USERGRANT, CMD_CS_N := pins.CMD_CS_N, CMD_SCK := pins.CMD_SCK }

/-- The link as take_offline is to leave it: the bus offline. -/
def Sim.wentOffline (st : Sim) : Sim := Sim.logged Ev.offline (Sim.setOnline false st)

/-- The transport over the simulated device.  The chip is selected by start
and released by stop; a start always opens a new command; restore_online puts
the bus back online.  take_offline is the routine of the source, run on a
register that reads as `flashcfg`; were it to return, the bus would be
offline. -/
def Sim.transport (c : Config) : Transport Sim where
  readcfg st := (st.flashcfg, st)
  busreadi base n st := Sim.logged (Ev.busread base n) st
  take_offline fuel st :=
    (FLASHDRVR.take_offline (pinsOf c) fuel 0 (Regs.fresh (fun _ => st.flashcfg))).map
      (fun _ => Sim.wentOffline st)
  restore_online st := Sim.logged Ev.online (Sim.setOnline true st)
  start st := Sim.selectTo Phase.opcode Ev.select st
  stop st := Sim.selectTo Phase.idle Ev.deselect st
  sendspibyte d st :=
    match Sim.exchange c d st with
    | (r, st1) => (r, Sim.logged (Ev.byte d) st1)

/-- The driver in the state take_offline is to hand to the rest of write: the
bus of the simulated device offline. -/
def Drv.offline : Drv Sim → Drv Sim
  | ⟨hw, sector, out⟩ => ⟨Sim.wentOffline hw, sector, out⟩

/-! ## A link that answers from a script -/

/-- A link that records what the programmer does on it and answers the
exchange number `n` with the byte `reply n`: whatever device is attached, its
answers along a run are some such sequence.  `cfg` is what R_FLASHCFG reads
as, `count` the number of exchanges done, `log` the record, oldest first. -/
structure Tape where
  reply : Nat → Nat
  cfg : Nat
  count : Nat
  log : List Ev

/-- The transport over a scripted link; take_offline is the routine of the
source, run on a register that reads as `cfg`. -/
def Tape.transport : Transport Tape where
  readcfg st := (st.cfg, st)
  busreadi base n st := ⟨st.reply, st.cfg, st.count, st.log ++ [Ev.busread base n]⟩
  take_offline fuel st :=
    (FLASHDRVR.take_offline pins fuel 0 (Regs.fresh (fun _ => st.cfg))).map
      (fun _ => ⟨st.reply, st.cfg, st.count, st.log ++ [Ev.offline]⟩)
  restore_online st := ⟨st.reply, st.cfg, st.count, st.log ++ [Ev.online]⟩
  start st := ⟨st.reply, st.cfg, st.count, st.log ++ [Ev.select]⟩
  stop st := ⟨st.reply, st.cfg, st.count, st.log ++ [Ev.deselect]⟩
  sendspibyte d st := (st.reply st.count, ⟨st.reply, st.cfg, st.count + 1, st.log ++ [Ev.byte d]⟩)

/-- The overlap (base, ln) of the request with the sector at `s`, as the body
of the sector loop computes it. -/
def overlap (c : Config) (addr len s : Nat) : Nat × Nat :=
  let base := if addr > s then addr else s
  let ln := usub (if uadd addr len > uadd s c.SECTORSZB then uadd s c.SECTORSZB
                  else uadd addr len) base
  (base, ln)

/-- The result (need_erase, newv) of the comparison loop of write for the
sector at `s`, when the buffer read back holds `sbuf`. -/
def sector_scan (c : Config) (addr len : Nat) (sbuf data : Nat → Nat) (s : Nat) : Bool × Nat :=
  diff_scan sbuf (fun i => data (usub (overlap c addr len s).1 addr + i))
    (overlap c addr len s).1 (overlap c addr len s).2 (overlap c addr len s).2 0 0

/-- Where the page loop starts for a sector that is not skipped: after an
erase `newv = (s<addr) ? addr : s`, else the newv of the scan. -/
def program_start (addr s : Nat) (d : Bool × Nat) : Nat :=
  if d.1 then (if s < addr then addr else s) else d.2

/-! ## Theorems -/

/-! ### write does not get past take_offline -/

/-- The clock-pulse loop of take_offline does not end while k < 32, and
nothing changes k. -/
theorem take_offline_pulses_none (P : Pins) (fuel k i : Nat) (st : Regs) (hk : k < 32) :
    take_offline_pulses P fuel k i st = none := by
  induction fuel generalizing i st with
  | zero => rfl
  | succ n ih => simp [take_offline_pulses, hk, ih]

/-- On a transport whose take_offline does not return, write does not return
either. -/
theorem write_hangs_without_offline {σ : Type} (T : Transport σ) (c : Config)
    (junk : Nat → Nat → Nat) (ulen : Nat → Nat) (fuel addr len : Nat) (data : Nat → Nat)
    (verify : Bool) (st : Drv σ) (h : T.take_offline fuel st.hw = none) :
    write T c junk ulen fuel addr len data verify st = Res.hang := by
  obtain ⟨hw, sector, out⟩ := st
  have e : Drv.take_offline T fuel ⟨hw, sector, out⟩ = none := by
    simp only [Drv.take_offline]
    rw [show T.take_offline fuel hw = none from h]
    rfl
  unfold write
  rw [e]

/-- Nothing is made of a result of take_offline: there is none, on any
register, for any fuel. -/
theorem offline_routine_none (P : Pins) (fuel i0 : Nat) (st : Regs) {α : Type} (f : Regs → α) :
    (take_offline P fuel i0 st).map f = none := by
  unfold take_offline
  cases getbus P fuel st with
  | none => rfl
  | some r => simp [take_offline_pulses_none]

/-- take_offline on the simulated link returns for no fuel. -/
theorem sim_take_offline (c : Config) (fuel : Nat) (st : Sim) :
    (Sim.transport c).take_offline fuel st = none :=
  offline_routine_none _ _ _ _ _

/-- take_offline on the scripted link returns for no fuel. -/
theorem tape_take_offline (fuel : Nat) (st : Tape) :
    Tape.transport.take_offline fuel st = none :=
  offline_routine_none _ _ _ _ _

/-- write on the simulated device returns for no request, no device state and
no fuel. -/
theorem write_never_returns (c : Config) (junk : Nat → Nat → Nat) (ulen : Nat → Nat)
    (fuel addr len : Nat) (data : Nat → Nat) (verify : Bool) (st : Drv Sim) :
    write (Sim.transport c) c junk ulen fuel addr len data verify st = Res.hang :=
  write_hangs_without_offline _ _ _ _ _ _ _ _ _ _ (sim_take_offline _ _ _)

/-! ### write and what follows take_offline in it -/

/-- Claim C1, at a failing input.  Four zero bytes are written at address 0 of
an erased device, verify on.  First part: write does not return, whatever the
fuel and the unwritten memory: it stays in take_offline, so it never returns
true and none of the four bytes reaches the flash.  Second part: the rest of
write, entered with the bus offline, returns true having sent one READ-ARRAY
and WRITE-DISABLE, and the four bytes still read 0xFF (the page loop is not
reached, so this holds whatever its unset variable `len` holds).  Every
difference found at an offset below 4 of a sector based at 0 is recorded as
newv = 0, which the test `newv == 0` takes for "already matches". -/
theorem write_stuck_rest_true_flash_differs :
    (∀ junk ulen fuel,
      write (Sim.transport typical) typical junk ulen fuel 0 4 (bytes [0, 0, 0, 0]) true
        (Drv.onSim (ffExcept []) 0) = Res.hang) ∧
    (∀ ulen,
      see [0, 1, 2, 3]
        (write_rest (Sim.transport typical) typical (junkAll 0) ulen 8 0 4
          (bytes [0, 0, 0, 0]) true (Drv.offline (Drv.onSim (ffExcept []) 0)))
        = some ⟨some true, [255, 255, 255, 255], true, [], [3, 4]⟩) :=
  ⟨fun _ _ _ => write_never_returns _ _ _ _ _ _ _ _ _, fun _ => of_decide_eq_true rfl⟩

/-- Claim C3, at a failing input.  Flash byte 0 holds 0x0F and 0xF0 is to be
written there, so (0x0F & 0xF0) differs from 0xF0 and an erase is needed.
First part: write does not return, it stays in take_offline: erase_sector is
not called.  Second part: the rest of write, entered with the bus offline.
The scan sets need_erase and newv = 0, the sector is then skipped: no
ERASE-SECTOR and no PAGE-PROGRAM is sent, true is returned and the byte is
still 0x0F. -/
theorem write_stuck_rest_no_erase_at_zero :
    (∀ junk ulen fuel,
      write (Sim.transport typical) typical junk ulen fuel 0 4 (bytes [240]) true
        (Drv.onSim (ffExcept [(0, 15)]) 0) = Res.hang) ∧
    (∀ ulen,
      see [0, 1, 2, 3]
        (write_rest (Sim.transport typical) typical (junkAll 0) ulen 8 0 4 (bytes [240])
          true (Drv.offline (Drv.onSim (ffExcept [(0, 15)]) 0)))
        = some ⟨some true, [15, 255, 255, 255], true, [], [3, 4]⟩) :=
  ⟨fun _ _ _ => write_never_returns _ _ _ _ _ _ _ _ _, fun _ => of_decide_eq_true rfl⟩

/-- Claim C7.  A request with len = 0, or len > PGLENB, or whose two ends lie
in different pages, makes page_program stop on an assertion with the state it
was called in: on any transport, nothing has been sent. -/
theorem page_program_rejects {σ : Type} (T : Transport σ) (c : Config) (fuel addr len : Nat)
    (data : Nat → Nat) (verify_write : Bool) (st : Drv σ)
    (h : len = 0 ∨ len > c.PGLENB ∨ PAGEOF c addr ≠ PAGEOF c (usub (uadd addr len) 1)) :
    page_program T c fuel addr len data verify_write st = Res.assertFail st := by
  unfold page_program
  rcases h with h | h | h
  · simp [h]
  · by_cases h0 : len > 0
    · simp [h0, Nat.not_le.mpr h]
    · simp [h0]
  · by_cases h0 : len > 0
    · by_cases h1 : len ≤ c.PGLENB
      · simp [h0, h1, h]
      · simp [h0, h1]
    · simp [h0]

/-- Claim C7, witness: ten bytes at address 250 cross from page 0 into page
256. -/
theorem page_program_rejects_witness :
    PAGEOF typical 250 ≠ PAGEOF typical (usub (uadd 250 10) 1) ∧
    page_program (Sim.transport typical) typical 8 250 10 (bytes []) true
      (Drv.onSim (ffExcept []) 0) = Res.assertFail (Drv.onSim (ffExcept []) 0) :=
  ⟨by decide, page_program_rejects _ _ _ _ _ _ _ _ (Or.inr (Or.inr (by decide)))⟩

/-- Claim C8, at a failing input.  Two bytes 0xFF, 0x00 for address 0x100: the
second source byte is not 0xFF, yet the scan, which steps by 4, sees data[0]
only; page_program sends nothing at all and returns true, the flash is
unchanged. -/
theorem page_program_skips_nonempty_page :
    see [256, 257]
      (page_program (Sim.transport typical) typical 8 256 2 (bytes [255, 0]) false
        (Drv.onSim (ffExcept []) 0))
      = some ⟨some true, [255, 255], true, [], []⟩ := by
  decide

/-- Claim C9, at two failing inputs.  The read-back starts at `sector`, not at
addr.  First: the byte 0x00 is programmed correctly at 0x100, `sector` is 0,
the read-back sees the 0xFF stored at 0 and page_program returns false.
Second: the byte 0xF0 for 0x100 is stored as 0x70 (bit 7 stuck), `sector` is
0x200 where 0xF0 is stored, and page_program returns true. -/
theorem page_program_verify_reads_sector :
    see [256]
      (page_program (Sim.transport typical) typical 8 256 1 (bytes [0]) true
        (Drv.onSim (ffExcept []) 0))
      = some ⟨some false, [0], true, [Msg.verifyFails 0 256], [6, 2, 5, 3]⟩ ∧
    see [256]
      (page_program (Sim.transport typical) typical 8 256 1 (bytes [240]) true
        (Drv.onFaulty (ffExcept [(512, 240)]) 512 256 127))
      = some ⟨some true, [112], true, [], [6, 2, 5, 3]⟩ := by
  decide

set_option maxRecDepth 1000000 in
/-- Claim C10, at a failing input.  After the erase of sector 0 the cell at
0x100, in the second page, reads 0x7F (bit 7 stuck).  The verification reads
the first page sixteen times, finds 0xFFFFFFFF each time, and erase_sector
returns true. -/
theorem erase_sector_checks_first_page_only :
    see [0, 256]
      (erase_sector (Sim.transport typical) typical 8 0 true
        (Drv.onFaulty (ffExcept []) 0 256 127))
      = some ⟨some true, [255, 127], true, [],
          [6, 32, 5, 3, 3, 3, 3, 3, 3, 3, 3, 3, 3, 3, 3, 3, 3, 3, 3]⟩ := by
  decide!

/-! ### The transport at the register -/

/-- Claim C11, at a failing input.  sendspibyte(0x00), on a register that
reads as granted: after the write of 0 the eight passes write CFG_MOSI (2)
with the clock low, then CFG_MOSI|CFG_SCK (3) with the clock high.  The
data-out bit is set in every pass although every bit of the byte is 0: the
value `mosi` computed from `d` is used by no write. -/
theorem sendspibyte_mosi_always_set :
    (sendspibyte pins 4 0 (Regs.fresh (readsFrom [4352]))).map (fun r => written r.2.ops)
      = some [0, 2, 3, 2, 3, 2, 3, 2, 3, 2, 3, 2, 3, 2, 3, 2, 3] := by
  decide

/-- Shifting a data-in bit into a char: `(r<<1) | b` is `2*r + b`. -/
theorem shift_in_bit (r b : Nat) (hb : b ≤ 1) : ((r <<< 1) ||| b) % 256 = (2 * r + b) % 256 := by
  have h : 2 ^ 1 * r + b = 2 ^ 1 * r ||| b := Nat.mul_add_lt_is_or (by omega) r
  rw [Nat.shiftLeft_eq, Nat.mul_comm r, ← h, Nat.pow_one]

theorem misoBit_le (P : Pins) (s : Nat) : misoBit P s ≤ 1 := by
  unfold misoBit; split <;> omega

theorem nreads_writeio (v : Nat) (st : Regs) : (writeio v st).nreads = st.nreads := rfl

theorem input_writeio (v : Nat) (st : Regs) : (writeio v st).input = st.input := rfl

theorem nreads_readio (st : Regs) : (readio st).2.nreads = st.nreads + 1 := rfl

theorem input_readio (st : Regs) : (readio st).2.input = st.input := rfl

theorem val_readio (st : Regs) : (readio st).1 = st.input st.nreads := rfl

/-- Claim C12.  When getbus returns, leaving the register in `st1`,
sendspibyte returns, and the byte it returns is made of the data-in bits of
the eight reads of its loop (the reads number nreads, ..., nreads+7 after
getbus), the first one in bit 7: the sum of m_i * 2^(7-i).  The byte `d` sent
does not occur in it. -/
theorem sendspibyte_returns_miso (P : Pins) (fuel d s : Nat) (st st1 : Regs)
    (h : getbus P fuel st = some (s, st1)) :
    (sendspibyte P fuel d st).map (fun r => r.1) =
      some (misoBit P (st1.input st1.nreads) * 128 + misoBit P (st1.input (st1.nreads + 1)) * 64
        + misoBit P (st1.input (st1.nreads + 2)) * 32 + misoBit P (st1.input (st1.nreads + 3)) * 16
        + misoBit P (st1.input (st1.nreads + 4)) * 8 + misoBit P (st1.input (st1.nreads + 5)) * 4
        + misoBit P (st1.input (st1.nreads + 6)) * 2 + misoBit P (st1.input (st1.nreads + 7))) := by
  unfold sendspibyte
  rw [h]
  simp only [Option.map_some', sendspibyte_bits, val_readio, nreads_readio, input_readio,
    nreads_writeio, input_writeio, shift_in_bit _ _ (misoBit_le _ _)]
  have h0 := misoBit_le P (st1.input st1.nreads)
  have h1 := misoBit_le P (st1.input (st1.nreads + 1))
  have h2 := misoBit_le P (st1.input (st1.nreads + 2))
  have h3 := misoBit_le P (st1.input (st1.nreads + 3))
  have h4 := misoBit_le P (st1.input (st1.nreads + 4))
  have h5 := misoBit_le P (st1.input (st1.nreads + 5))
  have h6 := misoBit_le P (st1.input (st1.nreads + 6))
  have h7 := misoBit_le P (st1.input (st1.nreads + 7))
  congr 1
  simp only [Nat.add_assoc, Nat.reduceAdd]
  omega

/-- Claim C12, witness: the register reads as granted, the data-in bit is set
in the reads 2, 5 and 9, that is in the samples 0, 3 and 7: the byte returned
is 0x91, whatever is sent (here 0). -/
theorem sendspibyte_returns_miso_witness :
    getbus pins 4 (Regs.fresh (readsFrom [4352, 4352, 4356, 4352, 4352, 4356, 4352, 4352, 4352, 4356]))
      = some (4352, ⟨readsFrom [4352, 4352, 4356, 4352, 4352, 4356, 4352, 4352, 4352, 4356], 2,
          [Op.rd 4352, Op.rd 4352]⟩) ∧
    (sendspibyte pins 4 0
      (Regs.fresh (readsFrom [4352, 4352, 4356, 4352, 4352, 4356, 4352, 4352, 4352, 4356]))).map
        (fun r => r.1) = some 145 :=
  ⟨rfl, sendspibyte_returns_miso pins 4 0 4352
    (Regs.fresh (readsFrom [4352, 4352, 4356, 4352, 4352, 4356, 4352, 4352, 4352, 4356]))
    ⟨readsFrom [4352, 4352, 4356, 4352, 4352, 4356, 4352, 4352, 4352, 4356], 2,
      [Op.rd 4352, Op.rd 4352]⟩ rfl⟩

/-- Claim C13, at a failing input.  Of the 32 samples only the first has the
data-in bit set, so the word shifted in is 0x80000000; sendspi32 makes its 32
reads (34 with the two of getbus) and returns 0: `r` is a char, the bit has
left it after eight shifts. -/
theorem sendspi32_drops_high_bits :
    (sendspi32 pins 4 0 (Regs.fresh (readsFrom [4352, 4352, 4356, 4352]))).map
      (fun r => (r.1, r.2.nreads)) = some (0, 34) := by
  decide

/-- Claim C18, at two failing inputs.  First: the status first read is 0 (no
request, no grant); the only value getbus writes is 0|CFG_CS_N|CFG_SCK = 9,
in which the user-request bit (256) is clear.  Second: the status first read
has the request bit and no grant; getbus writes nothing and polls.  In both
the status returned has the grant bit (4096). -/
theorem getbus_writes_no_request :
    (getbus pins 4 (Regs.fresh (readsFrom [0, 0, 4096]))).map (fun r => (r.1, r.2.ops))
      = some (4096, [Op.rd 0, Op.wr 9, Op.rd 0, Op.rd 4096]) ∧
    (getbus pins 4 (Regs.fresh (readsFrom [256, 4352]))).map (fun r => (r.1, r.2.ops))
      = some (4352, [Op.rd 256, Op.rd 4352]) := by
  decide

/-- Claim C20, refuted in general.  Whatever the register bits, the fuel, the
value of `i` and the hardware, take_offline does not return: once getbus has
returned, the loop `for(int k=0; k<32; i++)` runs for ever, since k stays 0. -/
theorem take_offline_never_returns (P : Pins) (fuel i0 : Nat) (st : Regs) :
    take_offline P fuel i0 st = none := by
  unfold take_offline
  cases getbus P fuel st with
  | none => rfl
  | some r => simp [take_offline_pulses_none]

/-! ### Arithmetic of pages and sectors -/

section Links

variable {σ : Type} (T : Transport σ) (c : Config)

/-- The body of the sector loop, written with `overlap`, `sector_scan` and
`program_start`. -/
theorem write_sector_plan (junk : Nat → Nat → Nat) (ulen : Nat → Nat) (fuel addr len : Nat)
    (data : Nat → Nat)
    (verify : Bool) (s : Nat) (st : Drv σ) :
    write_sector T c junk ulen fuel addr len data verify s st =
      (let r := readi T c (overlap c addr len s).1 ((overlap c addr len s).2 >>> 2) st
       let d := sector_scan c addr len (sbuf_byte (r.1.map byteswap) (junk s)) data s
       if d.2 = 0 then Res.ret true r.2
       else
         let erased : Res (Drv σ) (Option Nat) :=
           if !d.1 then Res.ret (some (program_start addr s d)) r.2
           else
             match erase_sector T c fuel s verify (Drv.print (Msg.erasingSector s) r.2) with
             | Res.ret true st1 => Res.ret (some (program_start addr s d)) st1
             | Res.ret false st1 => Res.ret none (Drv.print Msg.sectorEraseFailed st1)
             | Res.assertFail x => Res.assertFail x
             | Res.hang => Res.hang
         match erased with
         | Res.ret none st1 => Res.ret false st1
         | Res.ret (some newv) st1 =>
           match program_pages T c ulen fuel addr len data verify s fuel newv st1 with
           | Res.ret true st2 =>
             Res.ret true (if d.1 then Drv.print (Msg.sectorDone s) st2 else st2)
           | Res.ret false st2 => Res.ret false st2
           | Res.assertFail x => Res.assertFail x
           | Res.hang => Res.hang
         | Res.assertFail x => Res.assertFail x
         | Res.hang => Res.hang) := by
  unfold write_sector sector_scan program_start overlap
  simp only []
  by_cases h : (diff_scan
      (sbuf_byte (List.map byteswap (readi T c (if addr > s then addr else s)
        (usub (if uadd addr len > uadd s c.SECTORSZB then uadd s c.SECTORSZB else uadd addr len)
          (if addr > s then addr else s) >>> 2) st).1) (junk s))
      (fun i => data (usub (if addr > s then addr else s) addr + i))
      (if addr > s then addr else s)
      (usub (if uadd addr len > uadd s c.SECTORSZB then uadd s c.SECTORSZB else uadd addr len)
        (if addr > s then addr else s))
      (usub (if uadd addr len > uadd s c.SECTORSZB then uadd s c.SECTORSZB else uadd addr len)
        (if addr > s then addr else s)) 0 0).1 = true
  · simp [h]
  · simp [h]

end Links

set_option maxRecDepth 1000000 in
/-- Claim C16, at a failing input.  Eight zero bytes are written at address 0
of an erased device, so every byte of the overlap differs, the first at
offset 0.  First part: write does not return, it stays in take_offline: no
start is recorded and no chunk is issued.  The other parts: the rest of
write, entered with the bus offline.  The scan records newv = 4 (the
differences at offsets 0..3 give newv = 0, which the test `newv == 0` of the
scan takes for "none yet"), the only chunk is (4, 252), and the bytes 0..3
still read 0xFF after true has been returned. -/
theorem write_stuck_rest_start_after_first_difference :
    (∀ junk ulen fuel,
      write (Sim.transport typical) typical junk ulen fuel 0 8 (bytes [0, 0, 0, 0, 0, 0, 0, 0]) false
        (Drv.onSim (ffExcept []) 0) = Res.hang) ∧
    sector_scan typical 0 8 (fun _ => 255) (bytes [0, 0, 0, 0, 0, 0, 0, 0]) 0 = (false, 4) ∧
    page_chunk typical 0 4096 4 = (4, 252) ∧
    see [0, 1, 2, 3, 4, 5, 6, 7]
      (write_rest (Sim.transport typical) typical (junkAll 0) (fun _ => 4096) 8 0 8
        (bytes [0, 0, 0, 0, 0, 0, 0, 0]) false (Drv.offline (Drv.onSim (ffExcept []) 0)))
      = some ⟨some true, [255, 255, 255, 255, 0, 0, 0, 0], true, [], [3, 6, 2, 5, 4]⟩ :=
  ⟨fun _ _ _ => write_never_returns _ _ _ _ _ _ _ _ _, by decide, by decide, by decide!⟩

/-- Claim C17, at a failing input.  Six zero bytes are written at address 4;
the flash holds zeros at 4..7 and 0xFF at 8 and 9.  First part: write does
not return, it stays in take_offline: it reads nothing back.  The other
parts: the rest of write, entered with the bus offline.  The overlap has
ln = 6, readi is asked for ln>>2 = 1 word: four bytes are clocked in, the
bytes at 8 and 9 are never read.  The scan compares sbuf[4] and sbuf[5] all
the same; they hold what the fresh buffer held (0 here), the sector is taken
to match and the bytes at 8 and 9 keep 0xFF. -/
theorem write_stuck_rest_compares_unread_tail :
    (∀ junk ulen fuel,
      write (Sim.transport typical) typical junk ulen fuel 4 6 (bytes [0, 0, 0, 0, 0, 0]) false
        (Drv.onSim (ffExcept [(4, 0), (5, 0), (6, 0), (7, 0)]) 0) = Res.hang) ∧
    (∀ ulen,
      trafficAfter
        (write_rest (Sim.transport typical) typical (junkAll 0) ulen 8 4 6
          (bytes [0, 0, 0, 0, 0, 0]) false
          (Drv.offline (Drv.onSim (ffExcept [(4, 0), (5, 0), (6, 0), (7, 0)]) 0)))
        = some [Ev.offline, Ev.busread 4 0,
            Ev.select, Ev.byte 3, Ev.byte 0, Ev.byte 0, Ev.byte 4,
            Ev.byte 0, Ev.byte 0, Ev.byte 0, Ev.byte 0,
            Ev.select, Ev.byte 4, Ev.deselect, Ev.online]) ∧
    (∀ ulen,
      see [4, 5, 6, 7, 8, 9]
        (write_rest (Sim.transport typical) typical (junkAll 0) ulen 8 4 6
          (bytes [0, 0, 0, 0, 0, 0]) false
          (Drv.offline (Drv.onSim (ffExcept [(4, 0), (5, 0), (6, 0), (7, 0)]) 0)))
        = some ⟨some true, [0, 0, 0, 0, 255, 255], true, [], [3, 4]⟩) :=
  ⟨fun _ _ _ => write_never_returns _ _ _ _ _ _ _ _ _, fun _ => of_decide_eq_true rfl,
    fun _ => of_decide_eq_true rfl⟩

/-! ### readi on a scripted link -/

end FLASHDRVR
